import Mathlib

/-!
Verification of the gs-batch orchestration logic (src/gs_batch/gs_batch.py).

The Python program drives an external Ghostscript subprocess over a batch of
PDF files.  We shallowly embed the parts of the program that the claims are
about:

* a small model of the POSIX path functions (`os.path.dirname`, `basename`,
  `splitext`, `join`, `abspath`) used by `finalize_output`;
* an association-list filesystem state (`FileSys`) recording files (path and
  an abstract content token, which doubles as the size) and directories;
* the error classification `is_recoverable_error`, the prompt helper
  `prompt_retry_skip_abort` and the retry loop `retry_file_operation`
  (outcomes of the underlying fallible operation are supplied as an explicit
  list of per-attempt results, so the unbounded `while True` retry loop
  becomes structural recursion on that list);
* the reconciliation step `finalize_output` and the serial reconciliation
  loop of `_gs_batch_impl`;
* the front part of `_gs_batch_impl` (empty-filter early exit, the overwrite
  gate, PDF/A forcing of `keep_smaller`, task construction);
* the structure of `run_ghostscript` (metadata query, page-count parsing,
  timeout-checked progress loop).

Python exceptions become explicit error values, `sys.exit(1)` and early
`return` become distinguished outcome constructors, and wall-clock time is
modelled with explicit rational timestamps.
-/

namespace GsBatch

/-! ## String primitives

Character-list implementations of the Python string operations the program
uses (`split`, `join`, `strip`, `startswith`, `int(...)`), written with
structural recursion so that concrete runs reduce inside the kernel. -/

/-- Split a character list at every character satisfying `p`; empty pieces
between adjacent separators are kept, as in Python `str.split(sep)`. -/
def splitPredAux (p : Char → Bool) : List Char → List Char → List (List Char)
  | [], acc => [acc.reverse]
  | c :: cs, acc =>
    if p c then acc.reverse :: splitPredAux p cs []
    else splitPredAux p cs (c :: acc)

def strSplitPred (p : Char → Bool) (s : String) : List String :=
  (splitPredAux p s.toList []).map (fun cs => String.mk cs)

/-- Model of Python `s.split(sep)` for a one-character separator. -/
def strSplitOnChar (sep : Char) (s : String) : List String :=
  strSplitPred (fun c => c == sep) s

/-- Model of `"/".join(parts)` / `String.intercalate "/"`. -/
def slashJoin (parts : List String) : String :=
  String.mk (List.intercalate ['/'] (parts.map String.toList))

def strStartsWith (s t : String) : Bool :=
  t.toList.isPrefixOf s.toList

def strEndsWith (s t : String) : Bool :=
  t.toList.reverse.isPrefixOf s.toList.reverse

/-- Model of Python `str.strip()` (both ends, whitespace). -/
def trimChars (cs : List Char) : List Char :=
  ((cs.dropWhile (fun c => c.isWhitespace)).reverse.dropWhile
    (fun c => c.isWhitespace)).reverse

/-- Parse a nonempty all-digit character list as a natural number. -/
def digitsToNat? (cs : List Char) : Option Nat :=
  if cs ≠ [] ∧ cs.all (fun c => c.isDigit) then
    some (cs.foldl (fun n c => n * 10 + (c.toNat - 48)) 0)
  else none

/-! ## Path model (os.path, POSIX flavour)

The program only ever feeds these functions paths built from its inputs; the
model fixes the process working directory at the filesystem root, so
`abspath` is pure normalization of an absolute path. -/

def splitOnSlash (p : String) : List String := strSplitOnChar '/' p

/-- Model of `os.path.dirname`: everything before the last slash
(`"/a/b" ↦ "/a"`, `"b" ↦ ""`, `"/a" ↦ "/"`). -/
def dirname (p : String) : String :=
  let parts := splitOnSlash p
  let head := slashJoin parts.dropLast
  if head == "" && strStartsWith p "/" then "/" else head

/-- Model of `os.path.basename`: everything after the last slash. -/
def basename (p : String) : String :=
  (splitOnSlash p).getLastD ""

/-- Model of `os.path.splitext` applied to a basename: split at the last dot,
provided some earlier character of the name is not a dot (so purely leading
dots, as in `".bashrc"`, yield no extension). -/
def splitext (b : String) : String × String :=
  let cs := b.toList
  let k := (cs.takeWhile (fun c => c == '.')).length
  match ((List.range cs.length).filter (fun i => cs.getD i ' ' == '.')).getLast? with
  | some idx => if k < idx then (⟨cs.take idx⟩, ⟨cs.drop idx⟩) else (b, "")
  | none => (b, "")

/-- Model of two-argument `os.path.join`. -/
def joinPath (a b : String) : String :=
  if strStartsWith b "/" then b
  else if a == "" then b
  else if strEndsWith a "/" then a ++ b
  else a ++ "/" ++ b

/-- Normalize the components of an absolute path: drop empty and `"."`
components, let `".."` pop the previous component. -/
def normalizeParts (acc : List String) : List String → List String
  | [] => acc.reverse
  | c :: rest =>
    if c == "" || c == "." then normalizeParts acc rest
    else if c == ".." then
      match acc with
      | [] => normalizeParts [] rest
      | _ :: t => normalizeParts t rest
    else normalizeParts (c :: acc) rest

/-- Model of `os.path.abspath` with the working directory fixed at `/`. -/
def abspath (p : String) : String :=
  "/" ++ slashJoin (normalizeParts [] (splitOnSlash p))

/-! ## Filesystem state -/

/-- Filesystem state: an association list from file path to an abstract
content token (also serving as the file size), plus the set of directories. -/
structure FileSys where
  files : List (String × Nat)
  dirs : List String
  deriving DecidableEq

def FileSys.lookupFile (fs : FileSys) (p : String) : Option Nat :=
  (fs.files.find? (fun e => e.1 == p)).map (fun e => e.2)

def FileSys.fileExists (fs : FileSys) (p : String) : Bool :=
  (fs.lookupFile p).isSome

/-- Model of `os.path.exists`: true for files and directories. -/
def FileSys.pathExists (fs : FileSys) (p : String) : Bool :=
  fs.fileExists p || fs.dirs.contains p

def FileSys.removeFile (fs : FileSys) (p : String) : FileSys :=
  { fs with files := fs.files.filter (fun e => e.1 != p) }

def FileSys.setFile (fs : FileSys) (p : String) (c : Nat) : FileSys :=
  { fs with files := (p, c) :: fs.files.filter (fun e => e.1 != p) }

def FileSys.addDir (fs : FileSys) (p : String) : FileSys :=
  { fs with dirs := p :: fs.dirs }

/-- Model of `shutil.copy src dst` (the successful case): the destination
receives the source content; the source is untouched. -/
def shutil_copy (src dst : String) (fs : FileSys) : FileSys :=
  fs.setFile dst ((fs.lookupFile src).getD 0)

/-- Model of `shutil.move src dst` (the successful case). -/
def shutil_move (src dst : String) (fs : FileSys) : FileSys :=
  (fs.removeFile src).setFile dst ((fs.lookupFile src).getD 0)

/-- Model of `cleanup_temp_file`: best-effort removal (removing an absent
file is a no-op, as in the Python helper which swallows all exceptions). -/
def cleanup_temp_file (temp_file : String) (fs : FileSys) : FileSys :=
  fs.removeFile temp_file

/-! ## Error classification and the retry protocol -/

/-- The filesystem exceptions the reconciliation code distinguishes:
`PermissionError` and `OSError` with a specific `errno`. -/
inductive FsError where
  | permissionError
  | osError (errnoCode : Int)
  deriving DecidableEq

def ENOSPC : Int := 28
def EDQUOT : Int := 122

def errMsg : FsError → String
  | .permissionError => "PermissionError"
  | .osError n => "OSError errno " ++ toString n

/-- Model of `is_recoverable_error`: `PermissionError`, or `OSError` with
`errno` in `(ENOSPC, EDQUOT)`. -/
def is_recoverable_error : FsError → Bool
  | .permissionError => true
  | .osError n => n == ENOSPC || n == EDQUOT

inductive OnError where
  | prompt
  | skip
  | abort
  deriving DecidableEq

inductive RetryAction where
  | retry
  | skip
  | abort
  deriving DecidableEq

/-- Model of `prompt_retry_skip_abort`: `skip` and `abort` modes answer
without consulting the user; `prompt` returns the interactive response. -/
def prompt_retry_skip_abort (on_error : OnError) (response : RetryAction) : RetryAction :=
  match on_error with
  | .skip => .skip
  | .abort => .abort
  | .prompt => response

/-- Outcome of `retry_file_operation`: success, a raised `Exception`
(caught by `finalize_output`, failing the task), or `AbortBatchProcessing`. -/
inductive OpOutcome where
  | ok
  | taskFailed (msg : String)
  | abortBatch (msg : String)
  deriving DecidableEq

/-- Model of `retry_file_operation`.  The fallible operation is represented
by the list of outcomes of its successive attempts (`none` = attempt
succeeds); once the list is exhausted further attempts succeed.  Interactive
responses are consumed from `responses` (defaulting to retry, the prompt
default). -/
def retry_file_operation (filename : String) (op_type : String) (on_error : OnError) :
    List (Option FsError) → List RetryAction → OpOutcome
  | [], _ => .ok
  | none :: _, _ => .ok
  | some e :: attempts, responses =>
    if is_recoverable_error e then
      match prompt_retry_skip_abort on_error (responses.headD .retry) with
      | .retry => retry_file_operation filename op_type on_error attempts responses.tail
      | .skip => .taskFailed ("Skipped by user: " ++ errMsg e)
      | .abort => .abortBatch ("User aborted on " ++ op_type ++ " error: " ++ errMsg e)
    else
      .taskFailed ("Cannot " ++ op_type ++ " file " ++ filename ++ ": " ++ errMsg e)

/-! ## Reconciliation (`finalize_output`) -/

/-- The fields of the dict a worker returns for a Ghostscript success. -/
structure GsSuccess where
  id : Nat
  original_file : String
  original_size : Nat
  temp_file : String
  new_size : Nat
  prefix_str : String
  suffix : String
  keep_smaller : Bool
  force : Bool
  on_error : OnError
  deriving DecidableEq

/-- Environment of one reconciliation step: the injected outcome of
`os.makedirs`, the per-attempt outcomes of the single retried file
operation, and the interactive prompt responses. -/
structure FsEnv where
  mkdirError : Option FsError
  opAttempts : List (Option FsError)
  promptResponses : List RetryAction
  deriving DecidableEq

/-- A row of the final results table: the success dict (id, filename,
original_size, new_size, ratio, keeping) or the error dict produced by
`create_error_result` (id, filename, original_size, message). -/
inductive FinalResult where
  | success (id : Nat) (filename : String) (original_size : Nat)
      (new_size : Nat) (ratio : ℚ) (keeping : String)
  | failure (id : Nat) (filename : String) (original_size : Nat) (message : String)
  deriving DecidableEq

def FinalResult.idOf : FinalResult → Nat
  | .success id _ _ _ _ _ => id
  | .failure id _ _ _ => id

/-- Model of `create_error_result`. -/
def create_error_result (id : Nat) (original_file : String) (original_size : Nat)
    (message : String) : FinalResult :=
  .failure id (abspath original_file) original_size ("ERROR: " ++ message)

/-- The output path computed at the top of `finalize_output` from the
original file, prefix and suffix. -/
def output_path (original_file prefix_str suffix : String) : String :=
  let root := dirname original_file
  let input_basename := (splitext (basename original_file)).1
  let input_ext := (splitext (basename original_file)).2
  if prefix_str != "" then
    let prefix_dir := dirname prefix_str
    let prefix_name := basename prefix_str
    let output_dir := if prefix_dir != "" then joinPath root prefix_dir else root
    joinPath output_dir (prefix_name ++ input_basename ++ suffix ++ input_ext)
  else
    joinPath root (input_basename ++ suffix ++ input_ext)

/-- The success row returned at the end of `finalize_output`: reported
new size and ratio collapse to the original size and `1.0` when the
original is kept. -/
def success_result (g : GsSuccess) (output_file keeping : String) : FinalResult :=
  .success g.id (abspath output_file) g.original_size
    (if keeping == "new" then g.new_size else g.original_size)
    (if keeping == "new" then (g.new_size : ℚ) / (g.original_size : ℚ) else 1)
    keeping

/-- The `match (keeping, overwriting)` block of `finalize_output`, together
with the final success return.  `Except.error` is the raised
`AbortBatchProcessing` (after the handler has cleaned this task's temp
file). -/
def finalize_move (g : GsSuccess) (env : FsEnv) (fs : FileSys)
    (output_file : String) (overwriting : Bool) (keeping : String) :
    FileSys × Except String FinalResult :=
  if keeping == "original" then
    if overwriting then
      (cleanup_temp_file g.temp_file fs, .ok (success_result g output_file "original"))
    else
      match retry_file_operation output_file "copy" g.on_error env.opAttempts env.promptResponses with
      | .ok =>
        (cleanup_temp_file g.temp_file (shutil_copy g.original_file output_file fs),
         .ok (success_result g output_file "original"))
      | .taskFailed msg =>
        (cleanup_temp_file g.temp_file fs,
         .ok (create_error_result g.id g.original_file g.original_size msg))
      | .abortBatch msg => (cleanup_temp_file g.temp_file fs, .error msg)
  else
    if overwriting then
      if g.force then
        match retry_file_operation output_file "overwrite" g.on_error env.opAttempts env.promptResponses with
        | .ok => (shutil_move g.temp_file output_file fs, .ok (success_result g output_file "new"))
        | .taskFailed msg =>
          (cleanup_temp_file g.temp_file fs,
           .ok (create_error_result g.id g.original_file g.original_size msg))
        | .abortBatch msg => (cleanup_temp_file g.temp_file fs, .error msg)
      else
        (cleanup_temp_file g.temp_file fs, .ok (success_result g output_file "original"))
    else
      match retry_file_operation output_file "move" g.on_error env.opAttempts env.promptResponses with
      | .ok => (shutil_move g.temp_file output_file fs, .ok (success_result g output_file "new"))
      | .taskFailed msg =>
        (cleanup_temp_file g.temp_file fs,
         .ok (create_error_result g.id g.original_file g.original_size msg))
      | .abortBatch msg => (cleanup_temp_file g.temp_file fs, .error msg)

/-- The size-policy decision of `finalize_output`: keep the smaller file
when `keep_smaller` is set, otherwise always the new one. -/
def keep_decision (keep_smaller : Bool) (new_size original_size : Nat) : String :=
  if keep_smaller then
    if new_size < original_size then "new" else "original"
  else "new"

/-- Model of `finalize_output`: compute the output path and the size-policy
decision, create the output directory if needed (directory-creation failure
fails the task after discarding the temp file), then perform the keep /
overwrite case split. -/
def finalize_output (g : GsSuccess) (env : FsEnv) (fs : FileSys) :
    FileSys × Except String FinalResult :=
  if dirname (output_path g.original_file g.prefix_str g.suffix) != "" &&
      !(fs.pathExists (dirname (output_path g.original_file g.prefix_str g.suffix))) then
    match env.mkdirError with
    | some e =>
      (cleanup_temp_file g.temp_file fs,
       .ok (create_error_result g.id g.original_file g.original_size
         ("Cannot create directory " ++
           dirname (output_path g.original_file g.prefix_str g.suffix) ++ ": " ++ errMsg e)))
    | none =>
      finalize_move g env
        (fs.addDir (dirname (output_path g.original_file g.prefix_str g.suffix)))
        (output_path g.original_file g.prefix_str g.suffix)
        (abspath (output_path g.original_file g.prefix_str g.suffix) == abspath g.original_file)
        (keep_decision g.keep_smaller g.new_size g.original_size)
  else
    finalize_move g env fs (output_path g.original_file g.prefix_str g.suffix)
      (abspath (output_path g.original_file g.prefix_str g.suffix) == abspath g.original_file)
      (keep_decision g.keep_smaller g.new_size g.original_size)

/-! ## The worker phase (`process_file`) and the serial reconciliation loop -/

/-- One entry of the `file_tasks` tuple list built in `_gs_batch_impl`
(the engine argument strings are opaque to the properties considered and
are not carried). -/
structure TaskSpec where
  id : Nat
  pdf_file : String
  prefix_str : String
  suffix : String
  keep_smaller : Bool
  force : Bool
  on_error : OnError
  timeout : Int
  deriving DecidableEq

/-- Behaviour of the external engine on one task: the fresh temporary file
name handed out by `tempfile.NamedTemporaryFile`, and `some content` when
the Ghostscript run succeeds (the content token doubles as the size of the
produced file), `none` when it fails. -/
structure EngineBehavior where
  temp_file : String
  outcome : Option Nat
  deriving DecidableEq

/-- The dict returned by `process_file`: the success shape consumed by
`finalize_output`, or the `gs_failed` shape. -/
inductive GsResult where
  | success (g : GsSuccess)
  | gsFailed (id : Nat) (original_file : String) (original_size : Nat)
  deriving DecidableEq

def GsResult.idOf : GsResult → Nat
  | .success g => g.id
  | .gsFailed id _ _ => id

/-- Model of `process_file`: record the original size, run the engine into
the fresh temp file; on failure the temp file is removed again in the
worker, so the filesystem is unchanged. -/
def process_file (t : TaskSpec) (eng : EngineBehavior) (fs : FileSys) :
    FileSys × GsResult :=
  let original_size := (fs.lookupFile t.pdf_file).getD 0
  match eng.outcome with
  | some c =>
    (fs.setFile eng.temp_file c,
     .success { id := t.id, original_file := t.pdf_file, original_size := original_size,
                temp_file := eng.temp_file, new_size := c,
                prefix_str := t.prefix_str, suffix := t.suffix,
                keep_smaller := t.keep_smaller, force := t.force, on_error := t.on_error })
  | none => (fs, .gsFailed t.id t.pdf_file original_size)

/-- Model of `pool.map(process_file, file_tasks)`: the pool returns results
in task order (each worker touches only its own temp file, so folding the
filesystem effects sequentially is faithful). -/
def run_engine_phase (fs : FileSys) : List TaskSpec → List EngineBehavior → FileSys × List GsResult
  | [], _ => (fs, [])
  | t :: ts, engs =>
    let step := process_file t (engs.headD ⟨"", none⟩) fs
    let rest := run_engine_phase step.1 ts engs.tail
    (rest.1, step.2 :: rest.2)

/-- The body of the serial reconciliation loop of `_gs_batch_impl`:
a Ghostscript success goes through `finalize_output`, a Ghostscript failure
becomes an error row without touching the filesystem. -/
def reconcile_step (envs : List FsEnv) (fs : FileSys) :
    GsResult → FileSys × Except String FinalResult
  | .success g => finalize_output g (envs.headD ⟨none, [], []⟩) fs
  | .gsFailed id f sz => (fs, .ok (create_error_result id f sz "Ghostscript processing failed"))

/-- Model of the serial reconciliation loop of `_gs_batch_impl`: one step per
engine result in order; a raised `AbortBatchProcessing` (the `Except.error`
case) stops the loop at once — remaining results are not reconciled. -/
def reconcile_results (envs : List FsEnv) (fs : FileSys) :
    List GsResult → FileSys × Except String (List FinalResult)
  | [] => (fs, .ok [])
  | r :: rest =>
    match reconcile_step envs fs r with
    | (fs1, .ok fr) =>
      match reconcile_results envs.tail fs1 rest with
      | (fs2, .ok frs) => (fs2, .ok (fr :: frs))
      | (fs2, .error m) => (fs2, .error m)
    | (fs1, .error m) => (fs1, .error m)

/-! ## The front of `_gs_batch_impl`: empty-filter exit, overwrite gate,
PDF/A forcing, task construction -/

/-- The command-line inputs reaching `_gs_batch_impl` that matter here. -/
structure CliArgs where
  prefix_str : String
  suffix : String
  pdfa : Option Nat
  files : List String
  keep_smaller : Bool
  force : Bool
  filter : String
  verbose : Bool
  on_error : OnError
  timeout : Int
  deriving DecidableEq

/-- How the front of `_gs_batch_impl` ends: `sys.exit(1)`, a plain `return`
(process exit code 0) before any processing, or dispatch of the task list
to the worker pool. -/
inductive FrontOutcome where
  | exitFailure (msgs : List String)
  | earlyExitOk (msgs : List String)
  | dispatch (force : Bool) (keep_smaller : Bool) (tasks : List TaskSpec)
  deriving DecidableEq

/-- Task construction (lines 286-321): `keep_smaller` is forced off when a
PDF/A conversion is requested, then one task per discovered file is built
by `enumerate`. -/
def dispatch_tasks (a : CliArgs) (found_files : List String) (force : Bool) : FrontOutcome :=
  .dispatch force (if a.pdfa.isSome then false else a.keep_smaller)
    (found_files.enum.map (fun p =>
      { id := p.1, pdf_file := p.2, prefix_str := a.prefix_str, suffix := a.suffix,
        keep_smaller := if a.pdfa.isSome then false else a.keep_smaller,
        force := force, on_error := a.on_error, timeout := a.timeout }))

/-- Model of `_gs_batch_impl` from the empty-filter check to task
construction.  `found_files` is the outcome of file discovery and
`prompt_answer` the interactive reply to the overwrite question. -/
def gs_batch_front (a : CliArgs) (found_files : List String) (prompt_answer : String) :
    FrontOutcome :=
  if found_files.isEmpty then
    .earlyExitOk (["No files found matching the specified filter.", "Filter: " ++ a.filter] ++
      (if a.verbose then
        ["Searched " ++ toString a.files.length ++ " path(s), found 0 matching files."]
      else []))
  else if a.prefix_str == "" && !a.force then
    match a.on_error with
    | .abort => .exitFailure ["Error: No --prefix specified and --force not set",
        "Use --prefix to specify output location or --force to allow overwriting"]
    | .skip => .earlyExitOk ["Warning: No --prefix specified and --force not set",
        "Skipping all files (use --force to allow overwriting or --prefix for output location)"]
    | .prompt =>
      if prompt_answer == "y" then dispatch_tasks a found_files true
      else .earlyExitOk ["Aborting..."]
  else
    dispatch_tasks a found_files a.force

/-- Overall outcome of a run: early exit with code 0, `sys.exit(1)` before
processing, `sys.exit(1)` after a batch abort, or a completed results
table. -/
inductive BatchOutcome where
  | earlyOk (msgs : List String)
  | earlyFail (msgs : List String)
  | aborted (msg : String)
  | completed (results : List FinalResult)
  deriving DecidableEq

/-- The whole `_gs_batch_impl` pipeline around the two phases. -/
def run_batch (a : CliArgs) (found_files : List String) (prompt_answer : String)
    (engs : List EngineBehavior) (envs : List FsEnv) (fs : FileSys) :
    FileSys × BatchOutcome :=
  match gs_batch_front a found_files prompt_answer with
  | .exitFailure msgs => (fs, .earlyFail msgs)
  | .earlyExitOk msgs => (fs, .earlyOk msgs)
  | .dispatch _ _ tasks =>
    match reconcile_results envs (run_engine_phase fs tasks engs).1
        (run_engine_phase fs tasks engs).2 with
    | (fs2, .ok frs) => (fs2, .completed frs)
    | (fs2, .error m) => (fs2, .aborted m)

/-! ## The engine adapter (`run_ghostscript`, `get_total_page_count`) -/

/-- Model of Python `int(s)` on strings: surrounding whitespace is ignored,
an optional sign is followed by decimal digits.  (Python additionally
allows underscores between digits; none of the inputs considered use
them.) -/
def pyIntOfString (s : String) : Option Int :=
  match trimChars s.toList with
  | '-' :: rest => (digitsToNat? rest).map (fun n => -(n : Int))
  | '+' :: rest => (digitsToNat? rest).map (fun n => (n : Int))
  | t => (digitsToNat? t).map (fun n => (n : Int))

/-- Model of `get_total_page_count`: take the last field of
`stdout.split(" ")` (split at single spaces), delete every `"."`, and parse
with `int`; `none` is the raised `ValueError`. -/
def get_total_page_count (stdout : String) : Option Int :=
  pyIntOfString
    (String.mk ((((strSplitOnChar ' ' stdout).getLastD "").toList).filter (fun c => c != '.')))

/-- Modelled from the spec: the trailing whitespace-delimited token of a
string ("stdout containing a whitespace-delimited trailing integer
token"). -/
def spec_trailing_token (s : String) : String :=
  ((strSplitPred Char.isWhitespace s).filter (fun t => t != "")).getLastD ""

/-- Outcome of the `-dPDFINFO` metadata query: exit code and decoded
stdout. -/
structure InfoRun where
  returncode : Int
  stdout : String
  deriving DecidableEq

/-- Observable behaviour of the main Ghostscript invocation: the arrival
time (seconds after the main process starts) of each stdout line, and the
final exit code. -/
structure MainRun where
  lineTimes : List ℚ
  returncode : Int
  deriving DecidableEq

/-- Environment of one `run_ghostscript` call.  `infoDuration` is the
wall-clock time the metadata query takes. -/
structure GsEnv where
  info : InfoRun
  infoDuration : ℚ
  main : MainRun
  deriving DecidableEq

/-- Elapsed time against the timeout; `none` models `float(inf)`. -/
def timeout_exceeded (elapsed : ℚ) : Option ℚ → Bool
  | some t => elapsed > t
  | none => false

/-- Model of `actual_timeout = timeout if timeout > 0 else float(inf)` in
`process_file`. -/
def actual_timeout (timeout : Int) : Option ℚ :=
  if timeout > 0 then some (timeout : ℚ) else none

/-- The progress-reading loop of `run_ghostscript`: before every read of a
stdout line (including the read that hits end of stream) the elapsed time
since the main invocation started is compared against the timeout; `true`
means the process was killed on expiry. -/
def gs_progress_loop (tmo : Option ℚ) : ℚ → List ℚ → Bool
  | now, [] => timeout_exceeded now tmo
  | now, t :: rest =>
    if timeout_exceeded now tmo then true
    else gs_progress_loop tmo t rest

/-- How a `run_ghostscript` call ends.  The Python function returns `None`
on every failure and `True` on success; the constructors record which of
its distinct failure messages is printed. -/
inductive GsStatus where
  | infoFailed (msg : String)
  | parseFailed (msg : String)
  | timedOut
  | exitFailed (code : Int)
  | ok (total_pages : Int)
  deriving DecidableEq

/-- Model of `run_ghostscript`: first the metadata query (no timeout is
applied to it and the clock for the main phase starts only after it), then
page-count parsing, then the timeout-checked progress loop, then the exit
status of the main invocation. -/
def run_ghostscript (env : GsEnv) (tmo : Option ℚ) : GsStatus :=
  if env.info.returncode != 0 then
    .infoFailed "Ghostscript failed to get PDF info"
  else
    match get_total_page_count env.info.stdout with
    | none => .parseFailed "Cannot determine total number of pages"
    | some total =>
      if gs_progress_loop tmo 0 env.main.lineTimes then .timedOut
      else if env.main.returncode != 0 then .exitFailed env.main.returncode
      else .ok total

instance : DecidableEq (Except String FinalResult) := fun a b =>
  match a, b with
  | .ok x, .ok y =>
    if h : x = y then isTrue (by rw [h]) else isFalse (fun hc => by cases hc; exact h rfl)
  | .error x, .error y =>
    if h : x = y then isTrue (by rw [h]) else isFalse (fun hc => by cases hc; exact h rfl)
  | .ok _, .error _ => isFalse (fun hc => by cases hc)
  | .error _, .ok _ => isFalse (fun hc => by cases hc)

/-! ## Concrete instances used by the claim witnesses and counterexamples -/

/-- The demoted C1 instance: compression shrank the file, the output path
computed from prefix `./` coincides with the source, `force` is unset. -/
def c1_gs : GsSuccess :=
  { id := 0, original_file := "/d/a.pdf", original_size := 100,
    temp_file := "/tmp/t0.pdf", new_size := 60, prefix_str := "./", suffix := "",
    keep_smaller := true, force := false, on_error := .prompt }

def c1_fs : FileSys := ⟨[("/d/a.pdf", 100), ("/tmp/t0.pdf", 60)], ["/d", "/d/.", "/tmp"]⟩

/-- A C1 witness instance: `force` set, no prefix, compression shrinks
100 → 60. -/
def c1w_gs : GsSuccess :=
  { id := 0, original_file := "/d/a.pdf", original_size := 100,
    temp_file := "/tmp/t0.pdf", new_size := 60, prefix_str := "", suffix := "",
    keep_smaller := true, force := true, on_error := .prompt }

def c1w_fs : FileSys := ⟨[("/d/a.pdf", 100), ("/tmp/t0.pdf", 60)], ["/d", "/tmp"]⟩

/-- The C3 witness instance: no prefix (output path is the source path),
compression grew the file, so the keep decision is original. -/
def c3_gs : GsSuccess :=
  { id := 0, original_file := "/d/a.pdf", original_size := 100,
    temp_file := "/tmp/t0.pdf", new_size := 120, prefix_str := "", suffix := "",
    keep_smaller := true, force := true, on_error := .prompt }

def c3_fs : FileSys := ⟨[("/d/a.pdf", 100), ("/tmp/t0.pdf", 120)], ["/d", "/tmp"]⟩

def c2w_args : CliArgs :=
  { prefix_str := "out/", suffix := "", pdfa := none, files := ["/d"],
    keep_smaller := true, force := false, filter := "pdf", verbose := false,
    on_error := .skip, timeout := 300 }

def c2w_fs : FileSys := ⟨[("/d/a.pdf", 100), ("/d/b.pdf", 50)], ["/d", "/d/out", "/tmp"]⟩

def c2w_ts : List TaskSpec :=
  [{ id := 0, pdf_file := "/d/a.pdf", prefix_str := "out/", suffix := "",
     keep_smaller := true, force := false, on_error := .skip, timeout := 300 },
   { id := 1, pdf_file := "/d/b.pdf", prefix_str := "out/", suffix := "",
     keep_smaller := true, force := false, on_error := .skip, timeout := 300 }]

def c2w_frs : List FinalResult :=
  [FinalResult.success 0 "/d/out/a.pdf" 100 60 ((60 : ℚ) / 100) "new",
   FinalResult.failure 1 "/d/b.pdf" 50 "ERROR: Ghostscript processing failed"]

def c8w_args : CliArgs :=
  { prefix_str := "", suffix := "", pdfa := none, files := ["/d"],
    keep_smaller := true, force := false, filter := "pdf", verbose := false,
    on_error := .prompt, timeout := 300 }

def c8w_fs : FileSys := ⟨[("/d/a.pdf", 100)], ["/d", "/tmp"]⟩

def c9_args : CliArgs :=
  { prefix_str := "", suffix := "", pdfa := none, files := ["/d"],
    keep_smaller := true, force := false, filter := "png", verbose := false,
    on_error := .prompt, timeout := 300 }

def c5_args : CliArgs :=
  { prefix_str := "out/", suffix := "", pdfa := none, files := ["/d"],
    keep_smaller := true, force := false, filter := "pdf", verbose := false,
    on_error := .abort, timeout := 300 }

def c5_fs : FileSys := ⟨[("/d/a.pdf", 100), ("/d/b.pdf", 50)], ["/d", "/d/out", "/tmp"]⟩

def c5_engs : List EngineBehavior := [⟨"/tmp/t0.pdf", some 60⟩, ⟨"/tmp/t1.pdf", some 30⟩]

def c5_envs : List FsEnv := [⟨none, [some .permissionError], []⟩, ⟨none, [], []⟩]

def c5w_gs : GsSuccess :=
  { id := 0, original_file := "/d/a.pdf", original_size := 100,
    temp_file := "/tmp/t5.pdf", new_size := 60, prefix_str := "out/", suffix := "",
    keep_smaller := true, force := false, on_error := .prompt }

def c5w_fs : FileSys := ⟨[("/d/a.pdf", 100), ("/tmp/t5.pdf", 60)], ["/d", "/d/out", "/tmp"]⟩

def c5w_task : TaskSpec :=
  { id := 1, pdf_file := "/d/a.pdf", prefix_str := "out/", suffix := "",
    keep_smaller := true, force := false, on_error := .prompt, timeout := 300 }

def c7_env : GsEnv := ⟨⟨0, "pages 3"⟩, 100, ⟨[], 0⟩⟩

def c7w_env : GsEnv := ⟨⟨0, "pages 3"⟩, 0, ⟨[(5 : ℚ)], 0⟩⟩

/-- The C10 counterexample run: PDF/A conversion requested, prefix `./`
(output path equals source path), no `--force`; the engine produces a larger
file and the batch completes with the task kept as original. -/
def c10_args : CliArgs :=
  { prefix_str := "./", suffix := "", pdfa := some 2, files := ["/d"],
    keep_smaller := true, force := false, filter := "pdf", verbose := false,
    on_error := .prompt, timeout := 300 }

def c10_fs : FileSys := ⟨[("/d/a.pdf", 100)], ["/d", "/d/.", "/tmp"]⟩

/-- The C10 witness instance: PDF/A-style task (`keep_smaller = false`),
output path differs from the source, engine output larger than the
original. -/
def c10w_gs : GsSuccess :=
  { id := 0, original_file := "/d/a.pdf", original_size := 100,
    temp_file := "/tmp/t0.pdf", new_size := 120, prefix_str := "out/", suffix := "",
    keep_smaller := false, force := false, on_error := .prompt }

def c10w_fs : FileSys := ⟨[("/d/a.pdf", 100), ("/tmp/t0.pdf", 120)], ["/d", "/d/out", "/tmp"]⟩

def c10w_args : CliArgs :=
  { prefix_str := "out/", suffix := "", pdfa := some 2, files := ["/d"],
    keep_smaller := true, force := false, filter := "pdf", verbose := false,
    on_error := .prompt, timeout := 300 }

def c10w_task : TaskSpec :=
  { id := 0, pdf_file := "/d/a.pdf", prefix_str := "out/", suffix := "",
    keep_smaller := false, force := false, on_error := .prompt, timeout := 300 }

/-! ## Helper lemmas -/

theorem find?_filter_ne (p q : String) (h : q ≠ p) :
    ∀ l : List (String × Nat),
      (l.filter (fun e => e.1 != p)).find? (fun e => e.1 == q) =
        l.find? (fun e => e.1 == q)
  | [] => rfl
  | a :: t => by
    by_cases hap : a.1 = p
    · have h1 : (a.1 != p) = false := by simp [hap]
      have h2 : (a.1 == q) = false := by simp [hap]; exact fun hq => h hq.symm
      simp [List.filter_cons, h1, List.find?_cons, h2, find?_filter_ne p q h t]
    · have h1 : (a.1 != p) = true := by simp [hap]
      by_cases haq : a.1 = q
      · have h2 : (a.1 == q) = true := by simp [haq]
        simp [List.filter_cons, h1, List.find?_cons, h2]
      · have h2 : (a.1 == q) = false := by simp [haq]
        simp [List.filter_cons, h1, List.find?_cons, h2, find?_filter_ne p q h t]

theorem find?_filter_self (p : String) :
    ∀ l : List (String × Nat),
      (l.filter (fun e => e.1 != p)).find? (fun e => e.1 == p) = none
  | [] => rfl
  | a :: t => by
    by_cases hap : a.1 = p
    · have h1 : (a.1 != p) = false := by simp [hap]
      simp [List.filter_cons, h1, find?_filter_self p t]
    · have h1 : (a.1 != p) = true := by simp [hap]
      have h2 : (a.1 == p) = false := by simp [hap]
      simp [List.filter_cons, h1, List.find?_cons, h2, find?_filter_self p t]

theorem lookupFile_removeFile_ne (fs : FileSys) (p q : String) (h : q ≠ p) :
    (fs.removeFile p).lookupFile q = fs.lookupFile q := by
  unfold FileSys.removeFile FileSys.lookupFile
  simp only [find?_filter_ne p q h]

theorem lookupFile_removeFile_self (fs : FileSys) (p : String) :
    (fs.removeFile p).lookupFile p = none := by
  unfold FileSys.removeFile FileSys.lookupFile
  simp [find?_filter_self p fs.files]

theorem fileExists_removeFile_self (fs : FileSys) (p : String) :
    (fs.removeFile p).fileExists p = false := by
  unfold FileSys.fileExists
  simp [lookupFile_removeFile_self fs p]

theorem lookupFile_setFile_ne (fs : FileSys) (p q : String) (c : Nat) (h : q ≠ p) :
    (fs.setFile p c).lookupFile q = fs.lookupFile q := by
  unfold FileSys.setFile FileSys.lookupFile
  have h2 : ((p, c).1 == q) = false := by simp; exact fun hq => h hq.symm
  simp only [List.find?_cons, h2, find?_filter_ne p q h]

theorem fileExists_shutilMove_src (fs : FileSys) (src dst : String) (h : src ≠ dst) :
    (shutil_move src dst fs).fileExists src = false := by
  unfold shutil_move FileSys.fileExists
  rw [lookupFile_setFile_ne _ dst src _ h, lookupFile_removeFile_self]
  rfl

theorem finalize_move_temp_gone (g : GsSuccess) (env : FsEnv) (fs : FileSys)
    (O : String) (ow : Bool) (k : String) (hne : g.temp_file ≠ O) :
    (finalize_move g env fs O ow k).1.fileExists g.temp_file = false := by
  unfold finalize_move
  repeat' split
  all_goals
    first
      | exact fileExists_shutilMove_src fs g.temp_file O hne
      | exact fileExists_removeFile_self _ g.temp_file

theorem finalize_move_ok_idOf (g : GsSuccess) (env : FsEnv) (fs : FileSys)
    (O : String) (ow : Bool) (k : String) (r : FinalResult)
    (h : (finalize_move g env fs O ow k).2 = .ok r) : r.idOf = g.id := by
  unfold finalize_move at h
  repeat' split at h
  all_goals
    first
      | (injection h with h2; subst h2; rfl)
      | (injection h)

theorem finalize_output_ok_idOf (g : GsSuccess) (env : FsEnv) (fs : FileSys)
    (r : FinalResult) (h : (finalize_output g env fs).2 = .ok r) : r.idOf = g.id := by
  unfold finalize_output at h
  split at h
  · split at h
    · injection h with h2; subst h2; rfl
    · exact finalize_move_ok_idOf _ _ _ _ _ _ _ h
  · exact finalize_move_ok_idOf _ _ _ _ _ _ _ h

theorem finalize_output_temp_gone (g : GsSuccess) (env : FsEnv) (fs : FileSys)
    (hne : g.temp_file ≠ output_path g.original_file g.prefix_str g.suffix) :
    (finalize_output g env fs).1.fileExists g.temp_file = false := by
  unfold finalize_output
  split
  · split
    · exact fileExists_removeFile_self fs g.temp_file
    · exact finalize_move_temp_gone _ _ _ _ _ _ hne
  · exact finalize_move_temp_gone _ _ _ _ _ _ hne

theorem finalize_move_original_files (g : GsSuccess) (env : FsEnv) (fs : FileSys)
    (O : String) :
    (finalize_move g env fs O true "original").1.files = (fs.removeFile g.temp_file).files := rfl

theorem finalize_move_original_result (g : GsSuccess) (env : FsEnv) (fs : FileSys)
    (O : String) :
    (finalize_move g env fs O true "original").2 = .ok (success_result g O "original") := rfl

theorem finalize_move_refuse_files (g : GsSuccess) (env : FsEnv) (fs : FileSys)
    (O : String) (hforce : g.force = false) :
    (finalize_move g env fs O true "new").1.files = (fs.removeFile g.temp_file).files := by
  simp [finalize_move, hforce, cleanup_temp_file]

theorem finalize_move_refuse_result (g : GsSuccess) (env : FsEnv) (fs : FileSys)
    (O : String) (hforce : g.force = false) :
    (finalize_move g env fs O true "new").2 = .ok (success_result g O "original") := by
  simp [finalize_move, hforce]

theorem process_file_idOf (t : TaskSpec) (e : EngineBehavior) (fs : FileSys) :
    (process_file t e fs).2.idOf = t.id := by
  unfold process_file
  rcases h : e.outcome with _ | c <;> simp [h, GsResult.idOf]

theorem run_engine_phase_ids :
    ∀ (ts : List TaskSpec) (fs : FileSys) (engs : List EngineBehavior),
      (run_engine_phase fs ts engs).2.map GsResult.idOf = ts.map TaskSpec.id
  | [], _, _ => rfl
  | t :: ts, fs, engs => by
    unfold run_engine_phase
    simp [process_file_idOf, run_engine_phase_ids ts]

theorem reconcile_step_ok_idOf (envs : List FsEnv) (fs : FileSys) (r : GsResult)
    (fs1 : FileSys) (fr : FinalResult)
    (h : reconcile_step envs fs r = (fs1, .ok fr)) : fr.idOf = r.idOf := by
  cases r with
  | success g =>
    simp only [reconcile_step] at h
    exact finalize_output_ok_idOf g _ fs fr (by rw [h])
  | gsFailed id f sz =>
    simp only [reconcile_step] at h
    injection h with ha hb
    injection hb with hc
    subst hc
    rfl

theorem reconcile_results_ok_ids :
    ∀ (rs : List GsResult) (envs : List FsEnv) (fs fs2 : FileSys) (frs : List FinalResult),
      reconcile_results envs fs rs = (fs2, .ok frs) →
      frs.map FinalResult.idOf = rs.map GsResult.idOf
  | [], envs, fs, fs2, frs, h => by
    unfold reconcile_results at h
    injection h with ha hb
    injection hb with hc
    subst hc
    rfl
  | r :: rest, envs, fs, fs2, frs, h => by
    unfold reconcile_results at h
    split at h
    next fs1 fr heq =>
      split at h
      next fs3 frs2 heq2 =>
        injection h with ha hb
        injection hb with hc
        subst hc
        simp [List.map_cons, reconcile_step_ok_idOf envs fs r fs1 fr heq,
          reconcile_results_ok_ids rest envs.tail fs1 fs3 frs2 heq2]
      next fs3 m heq2 =>
        injection h with ha hb
        injection hb
    next fs1 m heq =>
      injection h with ha hb
      injection hb

theorem gs_progress_loop_none : ∀ (ts : List ℚ) (now : ℚ),
    gs_progress_loop none now ts = false
  | [], _ => rfl
  | t :: rest, now => by
    unfold gs_progress_loop
    simp [timeout_exceeded, gs_progress_loop_none rest t]

theorem lookupFile_congr (fs1 fs2 : FileSys) (q : String) (h : fs1.files = fs2.files) :
    fs1.lookupFile q = fs2.lookupFile q := by
  unfold FileSys.lookupFile
  rw [h]

theorem fileExists_congr (fs1 fs2 : FileSys) (q : String) (h : fs1.files = fs2.files) :
    fs1.fileExists q = fs2.fileExists q := by
  unfold FileSys.fileExists
  rw [lookupFile_congr fs1 fs2 q h]

theorem keep_decision_cases (ks : Bool) (ns os : Nat) :
    keep_decision ks ns os = "new" ∨ keep_decision ks ns os = "original" := by
  unfold keep_decision
  split
  · split
    · exact Or.inl rfl
    · exact Or.inr rfl
  · exact Or.inl rfl

theorem finalize_move_ok_success (g : GsSuccess) (env : FsEnv) (fs : FileSys)
    (O : String) (ow : Bool) (k : String)
    (hk : k = "new" ∨ k = "original")
    (id : Nat) (fn : String) (os ns : Nat) (ratio : ℚ) (keeping : String)
    (h : (finalize_move g env fs O ow k).2 = .ok (.success id fn os ns ratio keeping)) :
    (keeping = k ∨ (keeping = "original" ∧ ow = true ∧ g.force = false)) ∧
    ns = (if keeping == "new" then g.new_size else g.original_size) ∧
    ratio = (if keeping == "new" then (g.new_size : ℚ) / (g.original_size : ℚ) else 1) := by
  unfold finalize_move at h
  repeat' split at h
  all_goals
    first
      | (simp only [success_result, create_error_result, Except.ok.injEq,
           FinalResult.success.injEq] at h
         obtain ⟨e1, e2, e3, e4, e5, e6⟩ := h
         subst e4
         subst e5
         subst e6
         simp_all)
      | (simp only [create_error_result, Except.ok.injEq] at h
         exact FinalResult.noConfusion h)
      | injection h

theorem finalize_output_ok_success (g : GsSuccess) (env : FsEnv) (fs : FileSys)
    (id : Nat) (fn : String) (os ns : Nat) (ratio : ℚ) (keeping : String)
    (h : (finalize_output g env fs).2 = .ok (.success id fn os ns ratio keeping)) :
    (keeping = keep_decision g.keep_smaller g.new_size g.original_size ∨
      (keeping = "original" ∧
        (abspath (output_path g.original_file g.prefix_str g.suffix) ==
          abspath g.original_file) = true ∧
        g.force = false)) ∧
    ns = (if keeping == "new" then g.new_size else g.original_size) ∧
    ratio = (if keeping == "new" then (g.new_size : ℚ) / (g.original_size : ℚ) else 1) := by
  unfold finalize_output at h
  split at h
  · split at h
    · simp only [create_error_result, Except.ok.injEq] at h
      exact FinalResult.noConfusion h
    · exact finalize_move_ok_success _ _ _ _ _ _ (keep_decision_cases _ _ _) _ _ _ _ _ _ h
  · exact finalize_move_ok_success _ _ _ _ _ _ (keep_decision_cases _ _ _) _ _ _ _ _ _ h

/-! ## Claim C1: size policy of reconciliation under keepSmaller -/

/-- Claim C1 (amended): for a successfully reconciled task with
`keep_smaller` set, if `new_size >= original_size` the result keeps the
original, reports new-size equal to the original size and ratio `1.0`; if
`new_size < original_size` — provided `force` is set or the computed output
path differs from the source path, i.e. the overwrite-refusal demotion does
not apply — the result keeps the new file with ratio
`new_size / original_size`. -/
theorem c1_size_policy (g : GsSuccess) (env : FsEnv) (fs : FileSys)
    (hks : g.keep_smaller = true)
    (id : Nat) (fn : String) (os ns : Nat) (ratio : ℚ) (keeping : String)
    (hrun : (finalize_output g env fs).2 = .ok (.success id fn os ns ratio keeping)) :
    (g.original_size ≤ g.new_size →
      keeping = "original" ∧ ns = g.original_size ∧ ratio = 1) ∧
    (g.new_size < g.original_size →
      (g.force = true ∨
        abspath (output_path g.original_file g.prefix_str g.suffix) ≠ abspath g.original_file) →
      keeping = "new" ∧ ns = g.new_size ∧ ratio = (g.new_size : ℚ) / (g.original_size : ℚ)) := by
  obtain ⟨hkeep, hns, hratio⟩ := finalize_output_ok_success g env fs id fn os ns ratio keeping hrun
  constructor
  · intro hle
    have hkd : keep_decision g.keep_smaller g.new_size g.original_size = "original" := by
      unfold keep_decision
      rw [hks]
      simp [Nat.not_lt.mpr hle]
    have hkeq : keeping = "original" := by
      rcases hkeep with h | h
      · rw [h, hkd]
      · exact h.1
    subst hkeq
    refine ⟨rfl, by simpa using hns, by simpa using hratio⟩
  · intro hlt hor
    have hkd : keep_decision g.keep_smaller g.new_size g.original_size = "new" := by
      unfold keep_decision
      rw [hks]
      simp [hlt]
    have hkeq : keeping = "new" := by
      rcases hkeep with h | h
      · rw [h, hkd]
      · exfalso
        rcases hor with hf | hne
        · rw [h.2.2] at hf
          exact Bool.false_ne_true hf
        · exact hne (eq_of_beq h.2.1)
    subst hkeq
    refine ⟨rfl, by simpa using hns, by simpa using hratio⟩

/-- Claim C1 counterexample: a task with `keep_smaller` and
`new_size < original_size` whose reconciliation nevertheless keeps the
original with ratio `1.0` (the overwrite refusal demotes the decision), so
the unconditional "if newSize < originalSize then kept == new" of the claim
is false on the code. -/
theorem c1_size_policy_counterexample :
    c1_gs.keep_smaller = true ∧ c1_gs.new_size < c1_gs.original_size ∧
    (finalize_output c1_gs ⟨none, [], []⟩ c1_fs).2 =
      Except.ok (FinalResult.success 0 "/d/a.pdf" 100 100 1 "original") ∧
    (finalize_output c1_gs ⟨none, [], []⟩ c1_fs).2 ≠
      Except.ok (FinalResult.success 0 "/d/a.pdf" 100 60 ((60 : ℚ) / 100) "new") :=
  ⟨rfl, by decide, rfl, fun hcon => by
    have h2 : Except.ok (FinalResult.success 0 "/d/a.pdf" 100 100 (1 : ℚ) "original") =
        Except.ok (FinalResult.success 0 "/d/a.pdf" 100 60 ((60 : ℚ) / 100) "new") :=
      (rfl : (finalize_output c1_gs ⟨none, [], []⟩ c1_fs).2 =
        Except.ok (FinalResult.success 0 "/d/a.pdf" 100 100 1 "original")).symm.trans hcon
    injection h2 with h3
    injection h3 with e1 e2 e3 e4 e5 e6
    exact absurd e4 (by decide)⟩

theorem c1_size_policy_witness :
    ("new" : String) = "new" ∧ (60 : Nat) = c1w_gs.new_size ∧
      ((60 : ℚ) / 100) = (c1w_gs.new_size : ℚ) / (c1w_gs.original_size : ℚ) :=
  (c1_size_policy c1w_gs ⟨none, [], []⟩ c1w_fs rfl 0 "/d/a.pdf" 100 60 ((60 : ℚ) / 100) "new"
    rfl).2 (by decide) (Or.inl rfl)

/-! ## Claim C3: no-op safety when output path equals source path -/

/-- Claim C3: when the computed output path equals the source path and the
keep decision is original — including a new-keep decision refused and
demoted because `force` is unset — the only file change of reconciliation is
the removal of the task temp file: the source entry is untouched and never
overwritten, and the temp file is gone afterwards. -/
theorem c3_noop_safety (g : GsSuccess) (env : FsEnv) (fs : FileSys)
    (hover : abspath (output_path g.original_file g.prefix_str g.suffix) = abspath g.original_file)
    (hkeep : keep_decision g.keep_smaller g.new_size g.original_size = "original" ∨
      g.force = false)
    (hne : g.temp_file ≠ g.original_file) :
    (finalize_output g env fs).1.files = (fs.removeFile g.temp_file).files ∧
    (finalize_output g env fs).1.lookupFile g.original_file = fs.lookupFile g.original_file ∧
    (finalize_output g env fs).1.fileExists g.temp_file = false := by
  have hb : (abspath (output_path g.original_file g.prefix_str g.suffix) ==
      abspath g.original_file) = true := by
    simp [hover]
  have hfiles : ∀ fs0 : FileSys, fs0.files = fs.files →
      (finalize_move g env fs0 (output_path g.original_file g.prefix_str g.suffix) true
        (keep_decision g.keep_smaller g.new_size g.original_size)).1.files =
      (fs.removeFile g.temp_file).files := by
    intro fs0 h0
    rcases keep_decision_cases g.keep_smaller g.new_size g.original_size with hk | hk
    · rcases hkeep with hko | hf
      · rw [hk] at hko
        exact absurd hko (by decide)
      · rw [hk, finalize_move_refuse_files g env fs0 _ hf]
        simp only [FileSys.removeFile]
        rw [h0]
    · rw [hk, finalize_move_original_files]
      simp only [FileSys.removeFile]
      rw [h0]
  have key : (finalize_output g env fs).1.files = (fs.removeFile g.temp_file).files := by
    unfold finalize_output
    split
    · split
      · rfl
      · rw [hb]
        exact hfiles (fs.addDir _) rfl
    · rw [hb]
      exact hfiles fs rfl
  refine ⟨key, ?_, ?_⟩
  · rw [lookupFile_congr _ (fs.removeFile g.temp_file) _ key]
    exact lookupFile_removeFile_ne fs _ _ (Ne.symm hne)
  · rw [fileExists_congr _ (fs.removeFile g.temp_file) _ key]
    exact fileExists_removeFile_self fs _

theorem c3_noop_safety_witness :
    (finalize_output c3_gs ⟨none, [], []⟩ c3_fs).1.files =
      (c3_fs.removeFile "/tmp/t0.pdf").files ∧
    (finalize_output c3_gs ⟨none, [], []⟩ c3_fs).1.lookupFile "/d/a.pdf" =
      c3_fs.lookupFile "/d/a.pdf" ∧
    (finalize_output c3_gs ⟨none, [], []⟩ c3_fs).1.fileExists "/tmp/t0.pdf" = false :=
  c3_noop_safety c3_gs ⟨none, [], []⟩ c3_fs rfl (Or.inl rfl) (by decide)

/-! ## Claim C10: PDF/A conversion forces keeping the new file -/

set_option maxHeartbeats 1000000 in
/-- Claim C10 (amended): whenever a PDF/A intent is active, every dispatched
task has `keep_smaller = false`; for such a task, reconciliation keeps the
new file for every pair of sizes — provided `force` is set or the computed
output path differs from the source path, since otherwise the overwrite
refusal demotes the result to keeping the original. -/
theorem c10_forced_new_keep :
    (∀ (a : CliArgs) (found : List String) (ans : String) (f ks : Bool) (ts : List TaskSpec),
      a.pdfa.isSome = true →
      gs_batch_front a found ans = .dispatch f ks ts →
      ∀ t ∈ ts, t.keep_smaller = false) ∧
    (∀ (g : GsSuccess) (env : FsEnv) (fs : FileSys)
      (id : Nat) (fn : String) (os ns : Nat) (ratio : ℚ) (keeping : String),
      g.keep_smaller = false →
      (g.force = true ∨
        abspath (output_path g.original_file g.prefix_str g.suffix) ≠ abspath g.original_file) →
      (finalize_output g env fs).2 = .ok (.success id fn os ns ratio keeping) →
      keeping = "new") := by
  constructor
  · intro a found ans f ks ts hpdfa hfront t ht
    unfold gs_batch_front dispatch_tasks at hfront
    repeat' split at hfront
    all_goals try (exact FrontOutcome.noConfusion hfront)
    all_goals simp only [FrontOutcome.dispatch.injEq] at hfront
    all_goals obtain ⟨hf2, hk2, hts⟩ := hfront
    all_goals subst hts
    all_goals simp only [List.mem_map] at ht
    all_goals obtain ⟨p, hp, hteq⟩ := ht
    all_goals rw [← hteq]
  · intro g env fs id fn os ns ratio keeping hks hor hrun
    obtain ⟨hkeep, _, _⟩ := finalize_output_ok_success g env fs id fn os ns ratio keeping hrun
    have hkd : keep_decision g.keep_smaller g.new_size g.original_size = "new" := by
      simp [keep_decision, hks]
    rcases hkeep with h | h
    · rw [h, hkd]
    · exfalso
      rcases hor with hf | hne
      · rw [h.2.2] at hf
        exact Bool.false_ne_true hf
      · exact hne (eq_of_beq h.2.1)

/-- Claim C10 counterexample: in a batch with active PDF/A intent the single
task is reconciled with `kept == "original"` (not `"new"`): the overwrite
refusal overrides the forced new-keep, so "kept == new regardless of the
relative sizes" is false on the code as an unconditional statement. -/
theorem c10_forced_new_keep_counterexample :
    c10_args.pdfa.isSome = true ∧
    run_batch c10_args ["/d/a.pdf"] "" [⟨"/tmp/t0.pdf", some 120⟩] [⟨none, [], []⟩] c10_fs =
      (⟨[("/d/a.pdf", 100)], ["/d", "/d/.", "/tmp"]⟩,
       .completed [FinalResult.success 0 "/d/a.pdf" 100 100 1 "original"]) ∧
    ∀ r ∈ [FinalResult.success 0 "/d/a.pdf" 100 100 1 "original"],
      ∃ i f osz, r = FinalResult.success i f osz osz 1 "original" :=
  ⟨rfl, rfl, by
    intro r hr
    simp only [List.mem_singleton] at hr
    exact ⟨0, "/d/a.pdf", 100, hr⟩⟩

theorem c10_forced_new_keep_witness :
    (∀ t ∈ [c10w_task], t.keep_smaller = false) ∧
    ("new" : String) = "new" :=
  ⟨(c10_forced_new_keep).1 c10w_args ["/d/a.pdf"] "" false false _ rfl rfl,
   (c10_forced_new_keep).2 c10w_gs ⟨none, [], []⟩ c10w_fs 0 "/d/out/a.pdf" 100 120
     ((120 : ℚ) / 100) "new" rfl (Or.inr (by decide)) rfl⟩

/-! ## Claim C2: conservation and ordering of reconciliation results -/

/-- Claim C2: for every dispatched batch whose reconciliation loop completes
(per-task successes and failures both produce a row; only a batch abort
exits early), exactly one result row exists per task and the row ids are the
task ids `0, 1, ..., n-1` in order. -/
theorem c2_conservation (a : CliArgs) (found : List String) (ans : String)
    (f ks : Bool) (ts : List TaskSpec)
    (hfront : gs_batch_front a found ans = .dispatch f ks ts)
    (engs : List EngineBehavior) (envs : List FsEnv) (fs fs1 fs2 : FileSys)
    (rs : List GsResult) (frs : List FinalResult)
    (heng : run_engine_phase fs ts engs = (fs1, rs))
    (hrec : reconcile_results envs fs1 rs = (fs2, .ok frs)) :
    frs.length = ts.length ∧
    frs.map FinalResult.idOf = ts.map TaskSpec.id ∧
    frs.map FinalResult.idOf = List.range found.length := by
  have hids : frs.map FinalResult.idOf = rs.map GsResult.idOf :=
    reconcile_results_ok_ids rs envs fs1 fs2 frs hrec
  have hrs : rs.map GsResult.idOf = ts.map TaskSpec.id := by
    have h2 := run_engine_phase_ids ts fs engs
    rw [heng] at h2
    exact h2
  have hts : ts.map TaskSpec.id = List.range found.length := by
    unfold gs_batch_front dispatch_tasks at hfront
    repeat' split at hfront
    all_goals try (exact FrontOutcome.noConfusion hfront)
    all_goals simp only [FrontOutcome.dispatch.injEq] at hfront
    all_goals obtain ⟨hf2, hk2, htasks⟩ := hfront
    all_goals subst htasks
    all_goals rw [List.map_map]
    all_goals exact List.enum_map_fst found
  have hmain : frs.map FinalResult.idOf = ts.map TaskSpec.id := hids.trans hrs
  refine ⟨?_, hmain, hmain.trans hts⟩
  have hlen := congrArg List.length hmain
  simpa using hlen

theorem c2_conservation_witness :
    c2w_frs.length = c2w_ts.length ∧
    c2w_frs.map FinalResult.idOf = c2w_ts.map TaskSpec.id ∧
    c2w_frs.map FinalResult.idOf = List.range 2 :=
  c2_conservation c2w_args ["/d/a.pdf", "/d/b.pdf"] "" false true c2w_ts rfl
    [⟨"/tmp/t0.pdf", some 60⟩, ⟨"/tmp/t1.pdf", none⟩] [⟨none, [], []⟩, ⟨none, [], []⟩]
    c2w_fs _ _ _ c2w_frs rfl rfl

/-! ## Claim C8: the pre-dispatch overwrite gate -/

/-- Claim C8: with no prefix and `force` unset the overwrite question is
resolved once before any task is dispatched: under `prompt`, an answer other
than "y" ends the run with exit code 0 and an untouched filesystem, while
"y" dispatches the batch with `force` set on every task; under `abort` the
run exits with code 1 without prompting; under `skip` the run ends with exit
code 0 without processing any file. -/
theorem c8_overwrite_gate (a : CliArgs) (found : List String) (ans : String)
    (engs : List EngineBehavior) (envs : List FsEnv) (fs : FileSys)
    (hne : found.isEmpty = false) (hp : a.prefix_str = "") (hf : a.force = false) :
    (a.on_error = .prompt → ans ≠ "y" →
      run_batch a found ans engs envs fs = (fs, .earlyOk ["Aborting..."])) ∧
    (a.on_error = .prompt → ans = "y" →
      ∃ ks ts, gs_batch_front a found ans = .dispatch true ks ts ∧
        ∀ t ∈ ts, t.force = true) ∧
    (a.on_error = .abort →
      run_batch a found ans engs envs fs =
        (fs, .earlyFail ["Error: No --prefix specified and --force not set",
          "Use --prefix to specify output location or --force to allow overwriting"])) ∧
    (a.on_error = .skip →
      run_batch a found ans engs envs fs =
        (fs, .earlyOk ["Warning: No --prefix specified and --force not set",
          "Skipping all files (use --force to allow overwriting or --prefix for output location)"])) := by
  refine ⟨?_, ?_, ?_, ?_⟩
  · intro hoe hans
    have hb : (ans == "y") = false := by
      simp only [beq_eq_false_iff_ne, ne_eq]
      exact hans
    unfold run_batch gs_batch_front
    simp [hne, hp, hf, hoe, hb]
  · intro hoe hans
    subst hans
    refine ⟨if a.pdfa.isSome then false else a.keep_smaller,
      found.enum.map (fun p =>
        { id := p.1, pdf_file := p.2, prefix_str := a.prefix_str, suffix := a.suffix,
          keep_smaller := if a.pdfa.isSome then false else a.keep_smaller,
          force := true, on_error := a.on_error, timeout := a.timeout }), ?_, ?_⟩
    · unfold gs_batch_front dispatch_tasks
      simp [hne, hp, hf, hoe]
    · intro t ht
      simp only [List.mem_map] at ht
      obtain ⟨p, hp2, hteq⟩ := ht
      rw [← hteq]
  · intro hoe
    unfold run_batch gs_batch_front
    simp [hne, hp, hf, hoe]
  · intro hoe
    unfold run_batch gs_batch_front
    simp [hne, hp, hf, hoe]

theorem c8_overwrite_gate_witness :
    run_batch c8w_args ["/d/a.pdf"] "n" [] [] c8w_fs = (c8w_fs, .earlyOk ["Aborting..."]) :=
  (c8_overwrite_gate c8w_args ["/d/a.pdf"] "n" [] [] c8w_fs rfl rfl rfl).1 rfl (by decide)

/-! ## Claim C9: empty discovery result -/

/-- Claim C9 (amended): when file discovery produces an empty filtered list,
the run reports the no-files message and the active filter — and the count
of searched paths only when `verbose` is set — then ends with exit code 0,
leaving the filesystem untouched and dispatching no task. -/
theorem c9_empty_filter (a : CliArgs) (ans : String)
    (engs : List EngineBehavior) (envs : List FsEnv) (fs : FileSys) :
    run_batch a [] ans engs envs fs =
      (fs, .earlyOk (["No files found matching the specified filter.", "Filter: " ++ a.filter] ++
        (if a.verbose then
          ["Searched " ++ toString a.files.length ++ " path(s), found 0 matching files."]
        else []))) := rfl

/-- Claim C9 counterexample: with `verbose` off (the default), the
empty-filter exit reports only the no-files message and the filter; no
emitted message contains the count of searched paths, so the claim that the
count is always reported is false on the code. -/
theorem c9_empty_filter_counterexample :
    gs_batch_front c9_args [] "" =
      .earlyExitOk ["No files found matching the specified filter.", "Filter: png"] ∧
    ¬ ("Searched 1 path(s), found 0 matching files." ∈
        ["No files found matching the specified filter.", "Filter: png"]) :=
  ⟨rfl, by decide⟩

/-! ## Claim C4: error classification and the retry / skip / abort protocol -/

/-- Claim C4: a filesystem error on a retryable step is classified
recoverable exactly when it is a permission error or a disk-full/quota
error; a recoverable error under policy `skip` fails just that task with a
message carrying the "ERROR" marker while the loop moves to the next task;
under policy `abort` the step raises the batch-abort, the loop returns it
at once without reconciling the remaining tasks and the run exits non-zero;
a non-recoverable error fails the task immediately, no retry. -/
theorem c4_error_recovery :
    (∀ e : FsError, is_recoverable_error e = true ↔
      (e = .permissionError ∨ e = .osError ENOSPC ∨ e = .osError EDQUOT)) ∧
    (∀ (fn op : String) (e : FsError) (attempts : List (Option FsError))
        (resps : List RetryAction),
      is_recoverable_error e = true →
      retry_file_operation fn op .skip (some e :: attempts) resps =
        .taskFailed ("Skipped by user: " ++ errMsg e)) ∧
    (∀ (fn op : String) (e : FsError) (attempts : List (Option FsError))
        (resps : List RetryAction),
      is_recoverable_error e = true →
      retry_file_operation fn op .abort (some e :: attempts) resps =
        .abortBatch ("User aborted on " ++ op ++ " error: " ++ errMsg e)) ∧
    (∀ (fn op : String) (onErr : OnError) (e : FsError) (attempts : List (Option FsError))
        (resps : List RetryAction),
      is_recoverable_error e = false →
      retry_file_operation fn op onErr (some e :: attempts) resps =
        .taskFailed ("Cannot " ++ op ++ " file " ++ fn ++ ": " ++ errMsg e)) ∧
    (∀ (id : Nat) (f : String) (sz : Nat) (msg : String),
      create_error_result id f sz msg = .failure id (abspath f) sz ("ERROR: " ++ msg)) ∧
    (∀ (envs : List FsEnv) (fs fs1 : FileSys) (r : GsResult) (fr : FinalResult)
        (rest : List GsResult),
      reconcile_step envs fs r = (fs1, .ok fr) →
      reconcile_results envs fs (r :: rest) =
        ((reconcile_results envs.tail fs1 rest).1,
          match (reconcile_results envs.tail fs1 rest).2 with
          | .ok frs => .ok (fr :: frs)
          | .error m => .error m)) ∧
    (∀ (envs : List FsEnv) (fs fs1 : FileSys) (r : GsResult) (m : String)
        (rest : List GsResult),
      reconcile_step envs fs r = (fs1, .error m) →
      reconcile_results envs fs (r :: rest) = (fs1, .error m)) ∧
    (∀ (a : CliArgs) (found : List String) (ans : String) (f ks : Bool) (ts : List TaskSpec)
        (engs : List EngineBehavior) (envs : List FsEnv) (fs fs2 : FileSys) (m : String),
      gs_batch_front a found ans = .dispatch f ks ts →
      reconcile_results envs (run_engine_phase fs ts engs).1 (run_engine_phase fs ts engs).2 =
        (fs2, .error m) →
      run_batch a found ans engs envs fs = (fs2, .aborted m)) := by
  refine ⟨?_, ?_, ?_, ?_, ?_, ?_, ?_, ?_⟩
  · intro e
    cases e with
    | permissionError => simp [is_recoverable_error]
    | osError n =>
      simp [is_recoverable_error, ENOSPC, EDQUOT]
  · intro fn op e attempts resps hrec
    simp [retry_file_operation, hrec, prompt_retry_skip_abort]
  · intro fn op e attempts resps hrec
    simp [retry_file_operation, hrec, prompt_retry_skip_abort]
  · intro fn op onErr e attempts resps hrec
    simp [retry_file_operation, hrec]
  · intro id f sz msg
    rfl
  · intro envs fs fs1 r fr rest hstep
    conv_lhs => rw [reconcile_results]
    split
    next fs4 fr4 heq =>
      rw [hstep] at heq
      injection heq with e1 e2
      injection e2 with e3
      subst e1
      subst e3
      rcases hr : reconcile_results envs.tail fs1 rest with ⟨fs3, res⟩
      cases res <;> rfl
    next fs4 m4 heq =>
      rw [hstep] at heq
      injection heq with e1 e2
      injection e2
  · intro envs fs fs1 r m rest hstep
    conv_lhs => rw [reconcile_results]
    split
    next fs4 fr4 heq =>
      rw [hstep] at heq
      injection heq with e1 e2
      injection e2
    next fs4 m4 heq =>
      rw [hstep] at heq
      injection heq with e1 e2
      injection e2 with e3
      subst e1
      subst e3
      rfl
  · intro a found ans f ks ts engs envs fs fs2 m hfront hrec
    unfold run_batch
    split
    next msgs heq =>
      rw [hfront] at heq
      exact FrontOutcome.noConfusion heq
    next msgs heq =>
      rw [hfront] at heq
      exact FrontOutcome.noConfusion heq
    next f4 ks4 ts4 heq =>
      rw [hfront] at heq
      injection heq with e1 e2 e3
      subst e3
      split
      next fs4 frs4 heq2 =>
        rw [hrec] at heq2
        injection heq2 with e4 e5
        injection e5
      next fs4 m4 heq2 =>
        rw [hrec] at heq2
        injection heq2 with e4 e5
        injection e5 with e6
        subst e4
        subst e6
        rfl

theorem c4_error_recovery_witness :
    (is_recoverable_error (.osError 28) = true ↔
      (FsError.osError 28 = .permissionError ∨ FsError.osError 28 = .osError ENOSPC ∨
        FsError.osError 28 = .osError EDQUOT)) ∧
    retry_file_operation "/d/out/a.pdf" "move" .skip [some .permissionError] [] =
      .taskFailed "Skipped by user: PermissionError" ∧
    retry_file_operation "/d/out/a.pdf" "move" .abort [some .permissionError] [] =
      .abortBatch "User aborted on move error: PermissionError" ∧
    retry_file_operation "/d/out/a.pdf" "move" .prompt [some (.osError 5)] [.retry] =
      .taskFailed "Cannot move file /d/out/a.pdf: OSError errno 5" :=
  ⟨(c4_error_recovery).1 (.osError 28),
   (c4_error_recovery).2.1 "/d/out/a.pdf" "move" .permissionError [] [] rfl,
   (c4_error_recovery).2.2.1 "/d/out/a.pdf" "move" .permissionError [] [] rfl,
   (c4_error_recovery).2.2.2.1 "/d/out/a.pdf" "move" .prompt (.osError 5) [] [.retry] rfl⟩

/-! ## Claim C5: temp files never remain — refuted on the batch-abort path -/

/-- Claim C5 (amended): every task that is reconciled — on success, engine
failure, reconciliation failure or its own abort — leaves no temporary file
behind; but when a batch abort short-circuits the loop, the temporary files
of the not-yet-reconciled tasks are not cleaned up (see the
counterexample). -/
theorem c5_temp_cleanup :
    (∀ (g : GsSuccess) (env : FsEnv) (fs : FileSys),
      g.temp_file ≠ output_path g.original_file g.prefix_str g.suffix →
      (finalize_output g env fs).1.fileExists g.temp_file = false) ∧
    (∀ (t : TaskSpec) (eng : EngineBehavior) (fs : FileSys),
      eng.outcome = none → (process_file t eng fs).1 = fs) := by
  constructor
  · intro g env fs h
    exact finalize_output_temp_gone g env fs h
  · intro t eng fs h
    unfold process_file
    rw [h]

/-- Claim C5 counterexample: task 0 hits a recoverable error on its final
move under policy abort; the run exits non-zero having cleaned task 0's own
temp file, but task 1 — never reconciled — leaves its temporary file
`/tmp/t1.pdf` on disk, refuting "no temporary file remains on any exit
path". -/
theorem c5_temp_cleanup_counterexample :
    (run_batch c5_args ["/d/a.pdf", "/d/b.pdf"] "" c5_engs c5_envs c5_fs).2 =
      .aborted "User aborted on move error: PermissionError" ∧
    (run_batch c5_args ["/d/a.pdf", "/d/b.pdf"] "" c5_engs c5_envs c5_fs).1.fileExists
      "/tmp/t1.pdf" = true ∧
    (run_batch c5_args ["/d/a.pdf", "/d/b.pdf"] "" c5_engs c5_envs c5_fs).1.fileExists
      "/tmp/t0.pdf" = false :=
  ⟨rfl, rfl, rfl⟩

theorem c5_temp_cleanup_witness :
    (finalize_output c5w_gs ⟨none, [], []⟩ c5w_fs).1.fileExists "/tmp/t5.pdf" = false ∧
    (process_file c5w_task ⟨"/tmp/t6.pdf", none⟩ c5w_fs).1 = c5w_fs :=
  ⟨(c5_temp_cleanup).1 c5w_gs ⟨none, [], []⟩ c5w_fs (by decide),
   (c5_temp_cleanup).2 c5w_task ⟨"/tmp/t6.pdf", none⟩ c5w_fs rfl⟩

/-! ## Claim C6: the metadata query and its page-count parse -/

/-- Claim C6 (amended): the metadata query runs before the main invocation;
the unit-of-work count is parsed — by Python `int` semantics, tolerating
surrounding whitespace — from the last single-space-separated field of the
query stdout with every "." removed; a non-zero query exit or a failed parse
fails the task at once with a descriptive error, and the main invocation is
then never consulted (the result does not depend on it); a successful parse
seeds the total handed to the progress loop. -/
theorem c6_metadata_parse :
    (∀ (env : GsEnv) (tmo : Option ℚ), env.info.returncode ≠ 0 →
      run_ghostscript env tmo = .infoFailed "Ghostscript failed to get PDF info") ∧
    (∀ (info : InfoRun) (d1 d2 : ℚ) (m1 m2 : MainRun) (tmo : Option ℚ),
      info.returncode = 0 → get_total_page_count info.stdout = none →
      run_ghostscript ⟨info, d1, m1⟩ tmo =
        .parseFailed "Cannot determine total number of pages" ∧
      run_ghostscript ⟨info, d1, m1⟩ tmo = run_ghostscript ⟨info, d2, m2⟩ tmo) ∧
    (∀ (env : GsEnv) (tmo : Option ℚ) (n : Int),
      env.info.returncode = 0 → get_total_page_count env.info.stdout = some n →
      gs_progress_loop tmo 0 env.main.lineTimes = false → env.main.returncode = 0 →
      run_ghostscript env tmo = .ok n) := by
  refine ⟨?_, ?_, ?_⟩
  · intro env tmo h
    unfold run_ghostscript
    simp [h]
  · intro info d1 d2 m1 m2 tmo hrc hparse
    constructor <;>
      (unfold run_ghostscript
       simp [hrc, hparse])
  · intro env tmo n hrc hparse hloop hmain
    unfold run_ghostscript
    simp [hrc, hparse, hloop, hmain]

/-- Claim C6 counterexample: for metadata stdout `"pages 1.5"` the trailing
whitespace-delimited token is `"1.5"`, which is not an integer — under the
claim the task must fail with no main invocation — yet the code parses the
value 15 (it strips the dots from the last space-separated field) and the
task runs to completion. -/
theorem c6_metadata_parse_counterexample :
    spec_trailing_token "pages 1.5" = "1.5" ∧
    pyIntOfString "1.5" = none ∧
    get_total_page_count "pages 1.5" = some 15 ∧
    run_ghostscript ⟨⟨0, "pages 1.5"⟩, 0, ⟨[], 0⟩⟩ none = .ok 15 :=
  ⟨rfl, rfl, rfl, rfl⟩

theorem c6_metadata_parse_witness :
    run_ghostscript ⟨⟨0, "broken output"⟩, 0, ⟨[(2 : ℚ)], 7⟩⟩ none =
      .parseFailed "Cannot determine total number of pages" ∧
    run_ghostscript ⟨⟨0, "broken output"⟩, 0, ⟨[(2 : ℚ)], 7⟩⟩ none =
      run_ghostscript ⟨⟨0, "broken output"⟩, 5, ⟨[], 0⟩⟩ none :=
  (c6_metadata_parse).2.1 ⟨0, "broken output"⟩ 0 5 ⟨[(2 : ℚ)], 7⟩ ⟨[], 0⟩ none rfl rfl

/-! ## Claim C7: the per-task timeout -/

/-- Claim C7 (amended): the timeout bounds the main engine invocation only:
it is checked before each read of an output line, a check that finds the
elapsed main-phase time above the bound kills the process and fails the task
with a timeout error, and the loop only times out when such a check exists;
the metadata query runs without a timeout and its duration is never
consulted; `timeout = 0` maps to infinity, so no bound ever triggers. -/
theorem c7_timeout_scope :
    actual_timeout 0 = none ∧
    (∀ t : Int, 0 < t → actual_timeout t = some (t : ℚ)) ∧
    (∀ env : GsEnv, run_ghostscript env (actual_timeout 0) ≠ .timedOut) ∧
    (∀ (env : GsEnv) (tmo : Option ℚ) (n : Int),
      env.info.returncode = 0 → get_total_page_count env.info.stdout = some n →
      gs_progress_loop tmo 0 env.main.lineTimes = true →
      run_ghostscript env tmo = .timedOut) ∧
    (∀ (info : InfoRun) (d1 d2 : ℚ) (m : MainRun) (tmo : Option ℚ),
      run_ghostscript ⟨info, d1, m⟩ tmo = run_ghostscript ⟨info, d2, m⟩ tmo) ∧
    (∀ (tmo : Option ℚ) (now : ℚ) (ts : List ℚ),
      gs_progress_loop tmo now ts = true →
      ∃ x ∈ now :: ts, timeout_exceeded x tmo = true) := by
  refine ⟨rfl, ?_, ?_, ?_, ?_, ?_⟩
  · intro t ht
    unfold actual_timeout
    simp [ht]
  · intro env hcon
    unfold run_ghostscript at hcon
    rw [show actual_timeout 0 = none from rfl] at hcon
    split at hcon
    · exact GsStatus.noConfusion hcon
    · split at hcon
      · exact GsStatus.noConfusion hcon
      · rw [gs_progress_loop_none] at hcon
        simp only [Bool.false_eq_true, if_false] at hcon
        split at hcon
        · exact GsStatus.noConfusion hcon
        · exact GsStatus.noConfusion hcon
  · intro env tmo n hrc hparse hloop
    unfold run_ghostscript
    simp [hrc, hparse, hloop]
  · intro info d1 d2 m tmo
    rfl
  · intro tmo now ts
    induction ts generalizing now with
    | nil =>
      intro h
      unfold gs_progress_loop at h
      exact ⟨now, List.mem_cons_self now [], h⟩
    | cons t rest ih =>
      intro h
      unfold gs_progress_loop at h
      by_cases hx : timeout_exceeded now tmo = true
      · exact ⟨now, List.mem_cons_self now _, hx⟩
      · rw [if_neg (by simpa using hx)] at h
        obtain ⟨x, hmem, hex⟩ := ih t h
        exact ⟨x, List.mem_cons_of_mem now hmem, hex⟩

/-- Claim C7 counterexample: with `timeout = 1` second the metadata query
alone takes 100 seconds — the combined metadata + main lifetime exceeds the
bound — yet the task completes successfully: the timeout does not govern the
combined lifetime, only the main invocation. -/
theorem c7_timeout_scope_counterexample :
    run_ghostscript c7_env (actual_timeout 1) = .ok 3 ∧
    c7_env.infoDuration > (1 : ℚ) ∧
    actual_timeout 1 = some 1 :=
  ⟨rfl, by norm_num [c7_env], rfl⟩

theorem c7_timeout_scope_witness :
    run_ghostscript c7w_env (actual_timeout 1) = .timedOut ∧
    actual_timeout 1 = some ((1 : Int) : ℚ) :=
  ⟨(c7_timeout_scope).2.2.2.1 c7w_env (actual_timeout 1) 3 rfl rfl rfl,
   (c7_timeout_scope).2.1 1 (by decide)⟩

end GsBatch
